import Mathlib

/-!
Shallow embedding of `src/externals/python/window_inspector/window_inspector.py`
(the Mnemora window-inspector pipeline).

The script reads one snapshot of raw window records from the OS window server,
filters out noise records, classifies the survivors as important or not,
decides inclusion, stably sorts the kept entries and prints them as JSON;
on any failure it prints the literal `[]` and exits successfully.

Modelling decisions:
* A raw record is a dictionary with possibly-missing keys; each key becomes an
  `Option` field (`none` = key absent).  Numeric values are modelled as `Int`.
* Python truthiness of `app_name and window_num` (line 99) is spelled out:
  a string is falsy iff absent or empty, the window number is falsy iff absent
  or zero.
* `str.lower()` is modelled by `String.toLower`, `str.strip()` by `String.trim`,
  and the `in` substring test by an explicit contiguous-sublist scan.
* `list.sort` (line 147) is a stable sort by the key
  `(not isImportant, appName)`; it is modelled by `List.mergeSort` with the
  corresponding boolean `le`.
* The `try`/`except` wrapper (lines 21-155) is modelled by `runInspector` over
  an input that is either a snapshot or one of the two failure kinds
  (`ImportError` at line 152, any other exception at line 154).
-/

namespace WindowInspector

/-- One `kCGWindowBounds` dictionary; every key may be absent (line 105-107
read it with `bounds.get(key, 0)`). -/
structure BoundsDict where
  x? : Option Int
  y? : Option Int
  width? : Option Int
  height? : Option Int
deriving DecidableEq

instance : Inhabited BoundsDict := ⟨⟨none, none, none, none⟩⟩

/-- One raw window record as returned by `CGWindowListCopyWindowInfo`
(dictionary with possibly-missing keys, lines 95-114). -/
structure RawWindow where
  kCGWindowNumber : Option Int
  kCGWindowOwnerName : Option String
  kCGWindowName : Option String
  kCGWindowBounds : Option BoundsDict
  kCGWindowIsOnscreen : Option Bool
  kCGWindowLayer : Option Int
deriving DecidableEq

/-- One emitted entry (the `window_info` dictionary built at lines 130-139). -/
structure WindowInfo where
  windowId : Int
  appName : String
  windowTitle : String
  bounds : BoundsDict
  isOnScreen : Bool
  layer : Int
  isImportant : Bool
  area : Int
deriving DecidableEq

/-- The `important_apps` catalog (lines 30-73). -/
def important_apps : List String := [
  "GitHub Desktop", "github", "GitHub",
  "Google Chrome", "Chrome", "chrome",
  "Visual Studio Code", "Code", "VSCode", "code", "Visual Studio Code - Insiders",
  "Slack", "slack",
  "Microsoft Teams", "Teams", "msteams",
  "Figma", "figma",
  "Discord", "discord",
  "Notion", "notion",
  "Safari", "safari",
  "Firefox", "firefox", "Mozilla Firefox",
  "Terminal", "terminal",
  "iTerm2", "iTerm", "iTerm 2", "iterm", "iterm2",
  "Finder", "finder",
  "WeChat", "wechat", "微信",
  "Zoom", "zoom.us", "zoom",
  "Skype", "skype",
  "Microsoft PowerPoint", "PowerPoint", "powerpoint", "ppt",
  "Keynote", "keynote", "presentation",
  "Obsidian", "obsidian",
  "Roam Research", "roam", "roam research",
  "Logseq", "logseq",
  "IntelliJ IDEA", "intellij", "idea",
  "PyCharm", "pycharm",
  "Microsoft Edge", "edge",
  "Sketch", "sketch",
  "Adobe Photoshop", "photoshop", "ps",
  "Adobe Illustrator", "illustrator", "ai",
  "System Preferences", "system preferences", "settings", "系统设置",
  "Activity Monitor", "activity monitor",
  "Xcode", "xcode",
  "Spotify", "spotify",
  "Postman", "postman",
  "Cursor", "cursor",
  "Windsurf", "windsurf",
  "Claude Code", "claude-code", "claude code",
  "Kiro", "kiro",
  "Zen browser", "zen browser",
  "Microsoft Word", "Microsoft Excel",
  "Arc", "Brave", "Hyper", "Alacritty", "Warp",
  "SourceTree", "Insomnia", "TablePlus", "Sequel Pro", "DataGrip"]

/-- The `system_apps_to_skip` exclusion set (lines 76-89). -/
def system_apps_to_skip : List String := [
  "Dock", "Spotlight", "Control Center", "Notification Center",
  "SystemUIServer", "Window Server",
  "Mnemora", "Electron", "Mnemora - Your Second Brain",
  "ControlCenter", "WindowManager", "NotificationCenter",
  "AXVisualSupportAgent", "universalaccessd", "TextInputMenuAgent",
  "CoreLocationAgent", "loginwindow", "UserNotificationCenter",
  "CursorUIViewService", "LinkedNotesUIService", "Open and Save Panel Service",
  "程序坞", "通知中心", "聚焦", "墙纸", "微信输入法", "自动填充",
  "隐私与安全性"]

/-- Python `str.lower()`, modelled character by character (ASCII letters are
mapped to lower case; all catalog entries and the names in the claims are
ASCII or caseless CJK, where this agrees with Python). -/
def pyLower (s : String) : String :=
  ⟨s.data.map Char.toLower⟩

/-- Python `str.strip()`: drop whitespace from both ends. -/
def pyStrip (s : String) : String :=
  ⟨((s.data.dropWhile Char.isWhitespace).reverse.dropWhile Char.isWhitespace).reverse⟩

/-- Code-point lexicographic comparison of character lists: models the Python
string comparison that the sort of line 147 applies to the `appName`
component of the key tuple. -/
def charListLE : List Char → List Char → Bool
  | [], _ => true
  | _ :: _, [] => false
  | a :: as, b :: bs =>
    if a.toNat < b.toNat then true
    else if b.toNat < a.toNat then false
    else charListLE as bs

/-- Python string `<=` (case-sensitive, by code point). -/
def strLE (a b : String) : Bool :=
  charListLE a.data b.data

/-- Contiguous-substring scan over character lists: does `needle` occur as a
contiguous run inside the second list?  Models the Python `in` operator on
strings. -/
def strContainsAux (needle : List Char) : List Char → Bool
  | [] => needle.isPrefixOf []
  | c :: cs => needle.isPrefixOf (c :: cs) || strContainsAux needle cs

/-- The call `strContains s sub` models the Python expression `sub in s`. -/
def strContains (s sub : String) : Bool :=
  strContainsAux sub.data s.data

/-- The importance classifier (lines 118-121), parametrised by the catalog:
`any(app.lower() in app_name.lower() or app_name.lower() in app.lower()
for app in catalog)`. -/
def is_important_with (catalog : List String) (app_name : String) : Bool :=
  catalog.any fun app =>
    strContains (pyLower app_name) (pyLower app) || strContains (pyLower app) (pyLower app_name)

/-- The importance flag as the script computes it, over the fixed catalog. -/
def is_important (app_name : String) : Bool :=
  is_important_with important_apps app_name

/-- The owner-name read of line 96, with the empty-string default used once
the truthiness guard has passed. -/
def get_app_name (w : RawWindow) : String :=
  w.kCGWindowOwnerName.getD ""

/-- The bounds read of line 105, defaulting to the empty dictionary. -/
def get_bounds (w : RawWindow) : BoundsDict :=
  w.kCGWindowBounds.getD default

/-- The Width read of line 106, defaulting to 0. -/
def get_width (w : RawWindow) : Int :=
  (get_bounds w).width?.getD 0

/-- The Height read of line 107, defaulting to 0. -/
def get_height (w : RawWindow) : Int :=
  (get_bounds w).height?.getD 0

/-- The layer read of line 114, defaulting to 0. -/
def get_layer (w : RawWindow) : Int :=
  w.kCGWindowLayer.getD 0

/-- The title read of line 97, defaulting to the empty string. -/
def get_title (w : RawWindow) : String :=
  w.kCGWindowName.getD ""

/-- Line 122: the stripped title is non-empty. -/
def has_content (w : RawWindow) : Bool :=
  pyStrip (get_title w) != ""

/-- Line 123: width strictly above 300 and height strictly above 200. -/
def reasonable_size (w : RawWindow) : Bool :=
  decide (get_width w > 300) && decide (get_height w > 200)

/-- The identity guard of line 99, `if not (app_name and window_num)`,
with Python truthiness spelled out: rejects when the owner name is absent or
empty, or the window number is absent or zero. -/
def identity_rejects (w : RawWindow) : Bool :=
  match w.kCGWindowOwnerName, w.kCGWindowNumber with
  | some app_name, some window_num => decide (app_name = "") || decide (window_num = 0)
  | _, _ => true

/-- The system-app guard of line 102: exact membership in the exclusion set. -/
def system_rejects (w : RawWindow) : Bool :=
  decide (get_app_name w ∈ system_apps_to_skip)

/-- The tiny-window guard of line 110: `width < 50 or height < 50`. -/
def size_rejects (w : RawWindow) : Bool :=
  decide (get_width w < 50) || decide (get_height w < 50)

/-- The overlay guard of line 115: `layer > 200`. -/
def layer_rejects (w : RawWindow) : Bool :=
  decide (get_layer w > 200)

/-- Conjunction of the four noise-filter rules (lines 99-116): a record
survives the Noise Filter iff no rule rejects it. -/
def noise_passes (w : RawWindow) : Bool :=
  !identity_rejects w && !system_rejects w && !size_rejects w && !layer_rejects w

/-- The inclusion decision of line 125: important, or has content, or of
reasonable size. -/
def should_include (w : RawWindow) : Bool :=
  is_important (get_app_name w) || has_content w || reasonable_size w

/-- The `window_info` dictionary built at lines 130-139 for an accepted
record. -/
def mkEntry (w : RawWindow) : WindowInfo :=
  { windowId := w.kCGWindowNumber.getD 0
    appName := get_app_name w
    windowTitle := get_title w
    bounds := get_bounds w
    isOnScreen := w.kCGWindowIsOnscreen.getD false
    layer := get_layer w
    isImportant := is_important (get_app_name w)
    area := get_width w * get_height w }

/-- The body of the `for` loop (lines 94-142) for one record: `none` means the
record was skipped by a `continue`, `some` carries the dictionary appended to
`windows`. -/
def processRecord (window : RawWindow) : Option WindowInfo :=
  match window.kCGWindowOwnerName, window.kCGWindowNumber with
  | some app_name, some window_num =>
    if app_name = "" ∨ window_num = 0 then none
    else if app_name ∈ system_apps_to_skip then none
    else if get_width window < 50 ∨ get_height window < 50 then none
    else if get_layer window > 200 then none
    else if is_important app_name || has_content window || reasonable_size window then
      some { windowId := window_num
             appName := app_name
             windowTitle := get_title window
             bounds := get_bounds window
             isOnScreen := window.kCGWindowIsOnscreen.getD false
             layer := get_layer window
             isImportant := is_important app_name
             area := get_width window * get_height window }
    else none
  | _, _ => none

/-- The sort key comparison of line 147: Python compares the tuples
`(not isImportant, appName)` lexicographically, so an important entry sorts
before a non-important one, and ties are broken by `appName` ascending. -/
def sortLE (a b : WindowInfo) : Bool :=
  if a.isImportant = b.isImportant then strLE a.appName b.appName
  else a.isImportant

/-- The in-place sort of line 147, keyed by the pair of negated importance
and appName: a stable sort by `sortLE`. -/
def sort_windows (ws : List WindowInfo) : List WindowInfo :=
  ws.mergeSort sortLE

/-- The whole successful pass: the loop of lines 94-142 followed by the sort
of line 147. -/
def pipeline (window_list : List RawWindow) : List WindowInfo :=
  sort_windows (window_list.filterMap processRecord)

/-- One hexadecimal digit, for JSON control-character escapes. -/
def hexDigit (n : Nat) : Char :=
  if n < 10 then Char.ofNat (48 + n) else Char.ofNat (87 + n)

/-- JSON escaping of one character as `json.dumps` performs it with
`ensure_ascii=False`: backslash, quote and control characters are escaped,
everything else (including non-ASCII) is emitted literally. -/
def jsonEscapeChar (c : Char) : String :=
  if c = Char.ofNat 92 then "\\\\"
  else if c = Char.ofNat 34 then "\\\""
  else if c = Char.ofNat 10 then "\\n"
  else if c = Char.ofNat 9 then "\\t"
  else if c = Char.ofNat 13 then "\\r"
  else if c = Char.ofNat 8 then "\\b"
  else if c = Char.ofNat 12 then "\\f"
  else if c.toNat < 32 then
    "\\u00" ++ String.singleton (hexDigit (c.toNat / 16)) ++ String.singleton (hexDigit (c.toNat % 16))
  else String.singleton c

/-- A JSON string literal for `s`. -/
def jsonString (s : String) : String :=
  "\"" ++ String.join (s.data.map jsonEscapeChar) ++ "\""

/-- A JSON boolean. -/
def jsonBool : Bool → String
  | true => "true"
  | false => "false"

/-- The key/value lines of the serialized bounds dictionary: `dict(bounds)`
at line 134 copies exactly the keys that are present. -/
def boundsPairs (b : BoundsDict) : List String :=
  (match b.x? with | some v => ["\"X\": " ++ toString v] | none => []) ++
  (match b.y? with | some v => ["\"Y\": " ++ toString v] | none => []) ++
  (match b.width? with | some v => ["\"Width\": " ++ toString v] | none => []) ++
  (match b.height? with | some v => ["\"Height\": " ++ toString v] | none => [])

/-- The serialized bounds object, nested at indent level 2 of
`json.dumps(..., indent=2)`. -/
def boundsJson (b : BoundsDict) : String :=
  match boundsPairs b with
  | [] => "\x7b\x7d"
  | ps => "\x7b\n" ++ String.intercalate ",\n" (ps.map (fun p => "      " ++ p)) ++ "\n    \x7d"

/-- One serialized `window_info` object (the dictionary of lines 130-139) as
`json.dumps(..., indent=2, ensure_ascii=False)` renders it inside the array. -/
def windowInfoJson (e : WindowInfo) : String :=
  "  \x7b\n" ++
  "    \"windowId\": " ++ toString e.windowId ++ ",\n" ++
  "    \"appName\": " ++ jsonString e.appName ++ ",\n" ++
  "    \"windowTitle\": " ++ jsonString e.windowTitle ++ ",\n" ++
  "    \"bounds\": " ++ boundsJson e.bounds ++ ",\n" ++
  "    \"isOnScreen\": " ++ jsonBool e.isOnScreen ++ ",\n" ++
  "    \"layer\": " ++ toString e.layer ++ ",\n" ++
  "    \"isImportant\": " ++ jsonBool e.isImportant ++ ",\n" ++
  "    \"area\": " ++ toString e.area ++ "\n  \x7d"

/-- The serialization call of line 150 (indent 2, non-ASCII literal): the
empty list serializes to the two-character array, a non-empty list to the
full indented array. -/
def json_dumps (ws : List WindowInfo) : String :=
  match ws with
  | [] => "[]"
  | _ => "[\n" ++ String.intercalate ",\n" (ws.map windowInfoJson) ++ "\n]"

/-- The possible outcomes of the `try` body (lines 21-150): the `Quartz`
module import may fail (`ImportError`, caught at line 152), any exception
during mapping, filtering, classifying or serializing may be raised (caught
at line 154), or the snapshot is obtained and processed. -/
inductive SnapshotResult where
  | importError : SnapshotResult
  | processingError : SnapshotResult
  | ok : List RawWindow → SnapshotResult
deriving DecidableEq

/-- The whole script: on success it prints the serialized pipeline result, on
either failure kind it prints the literal `[]` (lines 152-155); in every case
the interpreter exits with status 0 because no exception escapes.  The result
is the pair (text printed to stdout, exit status). -/
def runInspector : SnapshotResult → String × Nat
  | SnapshotResult.importError => ("[]", 0)
  | SnapshotResult.processingError => ("[]", 0)
  | SnapshotResult.ok window_list => (json_dumps (pipeline window_list), 0)

/-! Concrete records used as test inputs by the theorems below. -/

/-- A record whose `kCGWindowNumber` is present and equal to `0`, with a
non-empty owner name and otherwise keepable fields. -/
def zeroIdWin : RawWindow :=
  ⟨some 0, some "Slack", some "general", some ⟨some 0, some 0, some 400, some 300⟩, some true, some 0⟩

/-- An accepted record whose owner name is exactly the catalog alias "Code". -/
def codeWin : RawWindow :=
  ⟨some 12, some "Code", some "", some ⟨some 0, some 0, some 800, some 600⟩, some true, some 0⟩

/-- An unrecognized app with empty title and 310x210 bounds. -/
def randomTool310 : RawWindow :=
  ⟨some 21, some "RandomTool", some "", some ⟨some 0, some 0, some 310, some 210⟩, some false, some 0⟩

/-- The same unrecognized app with empty title and 100x100 bounds. -/
def randomTool100 : RawWindow :=
  ⟨some 22, some "RandomTool", some "", some ⟨some 0, some 0, some 100, some 100⟩, some false, some 0⟩

/-- First of two important records with the same owner name. -/
def rA : RawWindow :=
  ⟨some 9, some "Slack", some "alpha", some ⟨some 0, some 0, some 400, some 300⟩, some true, some 0⟩

/-- Second of two important records with the same owner name. -/
def rB : RawWindow :=
  ⟨some 4, some "Slack", some "beta", some ⟨some 0, some 0, some 500, some 350⟩, some false, some 0⟩

/-- A 40x40 window of an important app with a non-empty title. -/
def smallImportant : RawWindow :=
  ⟨some 31, some "Slack", some "x", some ⟨some 0, some 0, some 40, some 40⟩, some true, some 0⟩

/-- A 60x60 window of an unrecognized app with a non-empty title. -/
def mediumTitled : RawWindow :=
  ⟨some 32, some "RandomTool", some "notes", some ⟨some 0, some 0, some 60, some 60⟩, some true, some 0⟩

/-- An otherwise keepable record at layer 201. -/
def layer201Win : RawWindow :=
  ⟨some 41, some "Slack", some "hello", some ⟨some 0, some 0, some 400, some 300⟩, some true, some 201⟩

/-- The same record at layer 200. -/
def layer200Win : RawWindow :=
  ⟨some 42, some "Slack", some "hello", some ⟨some 0, some 0, some 400, some 300⟩, some true, some 200⟩

/-- A large titled record owned by the excluded system app "Dock". -/
def dockWin : RawWindow :=
  ⟨some 51, some "Dock", some "big title", some ⟨some 0, some 0, some 1000, some 500⟩, some true, some 0⟩

/-- A record owned by "Doc", a strict substring of the excluded "Dock". -/
def docWin : RawWindow :=
  ⟨some 52, some "Doc", some "paper", some ⟨some 0, some 0, some 400, some 300⟩, some true, some 0⟩

/-- A record owned by "Dock Helper", a strict superstring of the excluded
"Dock". -/
def dockHelperWin : RawWindow :=
  ⟨some 53, some "Dock Helper", some "tools", some ⟨some 0, some 0, some 400, some 300⟩, some true, some 0⟩

/-- An accepted "Slack" record. -/
def slackTitledA : RawWindow :=
  ⟨some 61, some "Slack", some "one", some ⟨some 0, some 0, some 400, some 300⟩, some true, some 0⟩

/-- Another "Slack" record with different title, bounds, layer and on-screen
flag. -/
def slackTitledB : RawWindow :=
  ⟨some 62, some "Slack", some "two", some ⟨some 1, some 2, some 600, some 500⟩, some false, some 5⟩

/-- A record with identity fields present but every other key absent. -/
def defaultsBare : RawWindow :=
  ⟨some 71, some "Slack", none, none, none, none⟩

/-- A record with identity fields and bounds present but title, layer and
on-screen flag absent. -/
def defaultsBounded : RawWindow :=
  ⟨some 72, some "Slack", none, some ⟨some 0, some 0, some 400, some 300⟩, none, none⟩

/-- The loop body factors through the four noise rules and the inclusion
decision: a record yields an entry exactly when every noise rule passes and
`should_include` holds, and the entry is `mkEntry`. -/
theorem processRecord_eq (w : RawWindow) :
    processRecord w =
      if noise_passes w && should_include w then some (mkEntry w) else none := by
  rcases hn : w.kCGWindowOwnerName with _ | an <;>
    rcases hi : w.kCGWindowNumber with _ | wid <;>
      simp only [processRecord, noise_passes, identity_rejects, system_rejects, size_rejects,
        layer_rejects, should_include, has_content, reasonable_size, mkEntry, get_app_name,
        get_title, get_bounds, get_width, get_height, get_layer, hn, hi, Option.getD_some,
        Option.getD_none, Bool.not_true, Bool.false_and, Bool.and_false, Bool.if_false_left,
        if_neg, Bool.false_eq_true, if_false]
  · by_cases h1 : an = "" ∨ wid = 0
    · have : (decide (an = "") || decide (wid = 0)) = true := by
        rcases h1 with h | h <;> simp [h]
      simp [h1, this]
    · have h1a : ¬ an = "" := fun h => h1 (Or.inl h)
      have h1b : ¬ wid = 0 := fun h => h1 (Or.inr h)
      by_cases h2 : an ∈ system_apps_to_skip
      · simp [h1, h2, h1a, h1b]
      · by_cases h3 : (w.kCGWindowBounds.getD default).width?.getD 0 < 50 ∨
            (w.kCGWindowBounds.getD default).height?.getD 0 < 50
        · have : (decide ((w.kCGWindowBounds.getD default).width?.getD 0 < 50) ||
              decide ((w.kCGWindowBounds.getD default).height?.getD 0 < 50)) = true := by
            rcases h3 with h | h <;> simp [h]
          simp [h1, h2, h3, h1a, h1b, this]
        · have h3a : ¬ (w.kCGWindowBounds.getD default).width?.getD 0 < 50 :=
            fun h => h3 (Or.inl h)
          have h3b : ¬ (w.kCGWindowBounds.getD default).height?.getD 0 < 50 :=
            fun h => h3 (Or.inr h)
          by_cases h4 : w.kCGWindowLayer.getD 0 > 200
          · simp [h1, h2, h3, h4, h1a, h1b, h3a, h3b]
          · by_cases h5 : (is_important an ||
                pyStrip (w.kCGWindowName.getD "") != "" ||
                (decide ((w.kCGWindowBounds.getD default).width?.getD 0 > 300) &&
                 decide ((w.kCGWindowBounds.getD default).height?.getD 0 > 200))) = true
            · simp [h1, h2, h3, h4, h5, h1a, h1b, h3a, h3b]
            · simp [h1, h2, h3, h4, h1a, h1b, h3a, h3b, h5]

/-- An accepted record always yields the `mkEntry` entry, with every noise
rule passed and the inclusion decision true. -/
theorem processRecord_some_eq (w : RawWindow) (e : WindowInfo)
    (h : processRecord w = some e) :
    e = mkEntry w ∧ noise_passes w = true ∧ should_include w = true := by
  rw [processRecord_eq] at h
  by_cases hc : (noise_passes w && should_include w) = true
  · rw [if_pos hc] at h
    cases h
    obtain ⟨h1, h2⟩ := Bool.and_eq_true_iff.mp hc
    exact ⟨rfl, h1, h2⟩
  · rw [if_neg hc] at h
    cases h

/-- Membership in the pipeline output comes from some input record accepted by
the loop. -/
theorem mem_pipeline {rs : List RawWindow} {e : WindowInfo} (h : e ∈ pipeline rs) :
    ∃ w ∈ rs, processRecord w = some e := by
  have h' : e ∈ rs.filterMap processRecord := by
    simpa [pipeline, sort_windows] using h
  exact List.mem_filterMap.mp h'

/-- Totality of `charListLE`. -/
theorem charListLE_total : ∀ as bs : List Char, (charListLE as bs || charListLE bs as) = true
  | [], bs => by simp [charListLE]
  | a :: as, [] => by simp [charListLE]
  | a :: as, b :: bs => by
    simp only [charListLE]
    by_cases h1 : a.toNat < b.toNat
    · simp [h1]
    · by_cases h2 : b.toNat < a.toNat
      · simp [h1, h2]
      · simp [h1, h2, charListLE_total as bs]

/-- Transitivity of `charListLE`. -/
theorem charListLE_trans : ∀ as bs cs : List Char,
    charListLE as bs = true → charListLE bs cs = true → charListLE as cs = true
  | [], _, _ => fun _ _ => by simp [charListLE]
  | a :: as, [], cs => fun h _ => by simp [charListLE] at h
  | a :: as, b :: bs, [] => fun _ h => by simp [charListLE] at h
  | a :: as, b :: bs, c :: cs => fun h1 h2 => by
    simp only [charListLE] at h1 h2 ⊢
    by_cases hab : a.toNat < b.toNat <;> by_cases hba : b.toNat < a.toNat <;>
      by_cases hbc : b.toNat < c.toNat <;> by_cases hcb : c.toNat < b.toNat <;>
        simp only [hab, hba, hbc, hcb, if_true, if_false, if_pos, if_neg] at h1 h2 <;>
          first
            | (rw [if_pos (by omega)])
            | (rw [if_neg (by omega), if_neg (by omega)]
               exact charListLE_trans as bs cs h1 h2)
            | omega
            | simp_all

/-- The sort comparison is total. -/
theorem sortLE_total (a b : WindowInfo) : (sortLE a b || sortLE b a) = true := by
  unfold sortLE
  cases ha : a.isImportant <;> cases hb : b.isImportant <;>
    simp [ha, hb, strLE, charListLE_total]

/-- The sort comparison is transitive. -/
theorem sortLE_trans (a b c : WindowInfo) :
    sortLE a b = true → sortLE b c = true → sortLE a c = true := by
  unfold sortLE
  cases ha : a.isImportant <;> cases hb : b.isImportant <;> cases hc : c.isImportant <;>
    simp [ha, hb, hc, strLE] <;> exact charListLE_trans _ _ _

/-- The comparison sorts important entries before non-important ones. -/
theorem sortLE_important (a b : WindowInfo) (h : sortLE a b = true) :
    b.isImportant = true → a.isImportant = true := by
  intro hb
  unfold sortLE at h
  cases ha : a.isImportant
  · rw [ha, hb] at h
    simp at h
  · rfl

/-- C1 (counterexample): the claim states that every record whose windowId is
present - any non-negative integer, including 0 - and whose owner name is
non-empty passes the identity rule.  `zeroIdWin` has `kCGWindowNumber`
present and equal to 0, owner name "Slack", and otherwise keepable fields,
yet the identity guard of line 99 rejects it (Python truthiness treats the
integer 0 as falsy) and no entry is produced. -/
theorem identity_rule_zero_windowId_counterexample :
    zeroIdWin.kCGWindowNumber = some 0 ∧
    zeroIdWin.kCGWindowOwnerName = some "Slack" ∧
    identity_rejects zeroIdWin = true ∧
    processRecord zeroIdWin = none :=
  ⟨rfl, rfl, by decide, by decide⟩

/-- C1 (amended): the identity rule rejects a raw record exactly when its
windowId is absent or zero, or its owner name is absent or empty; every
record with a present non-zero windowId and a non-empty owner name passes
the rule, and the keep decision is then determined by the remaining filter
rules alone. -/
theorem identity_rule_amended (w : RawWindow) :
    (identity_rejects w = false ↔
      (∃ wid, w.kCGWindowNumber = some wid ∧ wid ≠ 0) ∧
      (∃ an, w.kCGWindowOwnerName = some an ∧ an ≠ "")) ∧
    (identity_rejects w = true → processRecord w = none) ∧
    (identity_rejects w = false →
      processRecord w =
        if (!system_rejects w && !size_rejects w && !layer_rejects w) && should_include w
        then some (mkEntry w) else none) := by
  refine ⟨?_, ?_, ?_⟩
  · rcases hn : w.kCGWindowOwnerName with _ | an <;>
      rcases hi : w.kCGWindowNumber with _ | wid <;>
        simp [identity_rejects, hn, hi]
    all_goals tauto
  · intro h
    rw [processRecord_eq, noise_passes, h]
    simp
  · intro h
    rw [processRecord_eq, noise_passes, h]
    simp

/-- C1 (witness). -/
theorem identity_rule_amended_witness :
    processRecord zeroIdWin = none ∧
    processRecord defaultsBounded =
      (if (!system_rejects defaultsBounded && !size_rejects defaultsBounded &&
           !layer_rejects defaultsBounded) && should_include defaultsBounded
       then some (mkEntry defaultsBounded) else none) :=
  ⟨(identity_rule_amended zeroIdWin).2.1 (by decide),
   (identity_rule_amended defaultsBounded).2.2 (by decide)⟩

/-- C2: for every accepted record, `isImportant` is true iff some catalog
entry, case-folded, is a substring of the case-folded appName or vice versa;
in particular "Code" and "My Visual Studio Code Fork" are both classified as
catalog matches. -/
theorem importance_classifier_spec :
    (∀ w e, processRecord w = some e →
      (e.isImportant = true ↔ ∃ app ∈ important_apps,
        (strContains (pyLower e.appName) (pyLower app) = true ∨
         strContains (pyLower app) (pyLower e.appName) = true))) ∧
    is_important "Code" = true ∧
    is_important "My Visual Studio Code Fork" = true := by
  refine ⟨?_, by decide, by decide⟩
  intro w e h
  rw [processRecord_eq] at h
  by_cases hc : noise_passes w && should_include w
  · rw [if_pos hc] at h
    cases h
    simp only [mkEntry, is_important, is_important_with, List.any_eq_true, Bool.or_eq_true]
  · rw [if_neg hc] at h
    cases h

/-- C2 (witness). -/
theorem importance_classifier_spec_witness :
    (mkEntry codeWin).isImportant = true :=
  (importance_classifier_spec.1 codeWin (mkEntry codeWin) (by decide)).mpr (by decide)

/-- C3: for every record surviving the Noise Filter, an entry is produced
exactly when `isImportant` or the stripped title is non-empty or the bounds
exceed 300x200 strictly; an unrecognized app with empty title is kept at
310x210 and dropped at 100x100. -/
theorem inclusion_decision_spec :
    (∀ w, noise_passes w = true → (processRecord w).isSome = should_include w) ∧
    (∀ w, should_include w =
      (is_important (get_app_name w) || has_content w || reasonable_size w)) ∧
    (∀ w, reasonable_size w = true ↔ (get_width w > 300 ∧ get_height w > 200)) ∧
    (∀ w, has_content w = true ↔ pyStrip (get_title w) ≠ "") ∧
    is_important "RandomTool" = false ∧
    processRecord randomTool310 = some (mkEntry randomTool310) ∧
    processRecord randomTool100 = none := by
  refine ⟨?_, fun w => rfl, ?_, ?_, by decide, by decide, by decide⟩
  · intro w h
    rw [processRecord_eq, h]
    cases hs : should_include w <;> simp [hs]
  · intro w
    simp [reasonable_size]
  · intro w
    simp [has_content]

/-- C3 (witness). -/
theorem inclusion_decision_spec_witness :
    (processRecord randomTool310).isSome = should_include randomTool310 :=
  inclusion_decision_spec.1 randomTool310 (by decide)

/-- C4: the emitted sequence is exactly the kept entries stably sorted by the
key (importance descending, then appName ascending): it is a permutation of
the kept entries (no deduplication), pairwise ordered by the sort key, and no
important entry follows a non-important one, and any two kept entries
already in key order keep their relative input order (stability); the whole
map is a pure function of the input, so a fixed input yields the same output
on every run. -/
theorem order_and_emit_spec (rs : List RawWindow) :
    pipeline rs = (rs.filterMap processRecord).mergeSort sortLE ∧
    (pipeline rs).Perm (rs.filterMap processRecord) ∧
    (pipeline rs).Pairwise (fun a b => sortLE a b = true) ∧
    (pipeline rs).Pairwise (fun a b => b.isImportant = true → a.isImportant = true) ∧
    (∀ a b : WindowInfo, List.Sublist [a, b] (rs.filterMap processRecord) → sortLE a b = true →
      List.Sublist [a, b] (pipeline rs)) := by
  have hsorted : (pipeline rs).Pairwise (fun a b => sortLE a b = true) :=
    List.sorted_mergeSort sortLE_trans sortLE_total (rs.filterMap processRecord)
  refine ⟨rfl, List.mergeSort_perm _ _, hsorted, hsorted.imp ?_, ?_⟩
  · exact fun h => sortLE_important _ _ h
  · intro a b hsub hab
    exact List.pair_sublist_mergeSort sortLE_trans sortLE_total hab hsub

/-- C4 (witness): two important entries with the same appName preserve their
relative input order in the output. -/
theorem order_and_emit_spec_witness :
    List.Sublist [mkEntry rA, mkEntry rB] (pipeline [rA, rB]) := by
  have h₁ : List.filterMap processRecord [rA, rB] = [mkEntry rA, mkEntry rB] := by decide
  refine (order_and_emit_spec [rA, rB]).2.2.2.2 _ _ ?_ (by decide)
  rw [h₁]

/-- C5: on either failure kind the process emits exactly the two-character
array `[]` with a success status; on success it emits the full serialized
sequence with a success status; hence the output is all-or-nothing - either
`[]` or the complete serialization - and the exit status is always 0. -/
theorem fail_safe_output_spec :
    runInspector SnapshotResult.importError = ("[]", 0) ∧
    runInspector SnapshotResult.processingError = ("[]", 0) ∧
    (runInspector SnapshotResult.importError).1.length = 2 ∧
    (∀ ws, runInspector (SnapshotResult.ok ws) = (json_dumps (pipeline ws), 0)) ∧
    (∀ r, (runInspector r).2 = 0) ∧
    (∀ r, (runInspector r).1 = "[]" ∨
      ∃ ws, r = SnapshotResult.ok ws ∧ (runInspector r).1 = json_dumps (pipeline ws)) := by
  refine ⟨rfl, rfl, rfl, fun ws => rfl, ?_, ?_⟩
  · rintro (_ | _ | ws) <;> rfl
  · rintro (_ | _ | ws)
    · exact Or.inl rfl
    · exact Or.inl rfl
    · exact Or.inr ⟨ws, rfl, rfl⟩

/-- C6: any record with width < 50 or height < 50 yields no entry regardless
of its other fields; the size rule passes exactly the records with width and
height both at least 50; the important 40x40 record is dropped and the
unrecognized titled 60x60 record survives the Noise Filter and is kept. -/
theorem size_rule_spec :
    (∀ w, size_rejects w = true → processRecord w = none) ∧
    (∀ w, size_rejects w = false ↔ (50 ≤ get_width w ∧ 50 ≤ get_height w)) ∧
    is_important (get_app_name smallImportant) = true ∧
    processRecord smallImportant = none ∧
    noise_passes mediumTitled = true ∧
    processRecord mediumTitled = some (mkEntry mediumTitled) := by
  refine ⟨?_, ?_, by decide, by decide, by decide, by decide⟩
  · intro w h
    rw [processRecord_eq, noise_passes]
    simp [h]
  · intro w
    simp only [size_rejects, Bool.or_eq_false_iff, decide_eq_false_iff_not]
    omega

/-- C6 (witness). -/
theorem size_rule_spec_witness :
    processRecord smallImportant = none ∧ size_rejects mediumTitled = false :=
  ⟨size_rule_spec.1 smallImportant (by decide),
   (size_rule_spec.2.1 mediumTitled).mpr (by decide)⟩

/-- C7: any record with layer > 200 yields no entry; the layer rule passes
exactly the records with layer at most 200, so layer 200 survives the rule
while layer 201 is dropped. -/
theorem layer_rule_spec :
    (∀ w, layer_rejects w = true → processRecord w = none) ∧
    (∀ w, layer_rejects w = false ↔ get_layer w ≤ 200) ∧
    layer_rejects layer201Win = true ∧
    processRecord layer201Win = none ∧
    layer_rejects layer200Win = false ∧
    processRecord layer200Win = some (mkEntry layer200Win) := by
  refine ⟨?_, ?_, by decide, by decide, by decide, by decide⟩
  · intro w h
    rw [processRecord_eq, noise_passes]
    simp [h]
  · intro w
    simp only [layer_rejects, decide_eq_false_iff_not]
    omega

/-- C7 (witness). -/
theorem layer_rule_spec_witness :
    processRecord layer201Win = none ∧ layer_rejects layer200Win = false :=
  ⟨layer_rule_spec.1 layer201Win (by decide),
   (layer_rule_spec.2.1 layer200Win).mpr (by decide)⟩

/-- C8: a record whose owner name is exactly equal to an exclusion-set entry
never appears in the output, regardless of its other fields; the rule is
exact string equality, so "Doc" (contained in "Dock") and "Dock Helper"
(containing "Dock") are not rejected by it, even though they stand in a
substring relation to an excluded name. -/
theorem system_exclusion_spec :
    (∀ rs e, e ∈ pipeline rs → e.appName ∉ system_apps_to_skip) ∧
    (∀ w, system_rejects w = true ↔ get_app_name w ∈ system_apps_to_skip) ∧
    (∀ w, system_rejects w = true → processRecord w = none) ∧
    system_rejects dockWin = true ∧
    processRecord dockWin = none ∧
    system_rejects docWin = false ∧
    system_rejects dockHelperWin = false ∧
    strContains "Dock" "Doc" = true ∧
    strContains "Dock Helper" "Dock" = true := by
  refine ⟨?_, ?_, ?_, by decide, by decide, by decide, by decide, by decide, by decide⟩
  · intro rs e he
    obtain ⟨w, -, hpw⟩ := mem_pipeline he
    obtain ⟨rfl, hnp, -⟩ := processRecord_some_eq w e hpw
    simp only [noise_passes, Bool.and_eq_true, Bool.not_eq_true'] at hnp
    obtain ⟨⟨⟨-, hsys⟩, -⟩, -⟩ := hnp
    rw [system_rejects, decide_eq_false_iff_not] at hsys
    simpa only [mkEntry] using hsys
  · intro w
    simp [system_rejects]
  · intro w h
    rw [processRecord_eq, noise_passes]
    simp [h]

/-- C8 (witness). -/
theorem system_exclusion_spec_witness :
    (mkEntry rA).appName ∉ system_apps_to_skip ∧
    system_rejects dockWin = true ∧
    processRecord dockWin = none := by
  have hmem : mkEntry rA ∈ pipeline [rA] := by
    have h : List.filterMap processRecord [rA] = [mkEntry rA] := by decide
    simp only [pipeline, sort_windows, h, List.mergeSort_singleton]
    exact List.mem_singleton_self _
  exact ⟨system_exclusion_spec.1 [rA] (mkEntry rA) hmem,
    (system_exclusion_spec.2.1 dockWin).mpr (by decide),
    system_exclusion_spec.2.2.1 dockWin (by decide)⟩

/-- C9: `isImportant` is a pure function of the owner name and the catalog:
two accepted records with the same owner name receive the same `isImportant`
regardless of every other field, the flag of each accepted entry equals the
classifier applied to its appName alone, and permuting the catalog never
changes the classification of any name. -/
theorem importance_purity_spec :
    (∀ w₁ w₂ e₁ e₂, processRecord w₁ = some e₁ → processRecord w₂ = some e₂ →
      w₁.kCGWindowOwnerName = w₂.kCGWindowOwnerName → e₁.isImportant = e₂.isImportant) ∧
    (∀ w e, processRecord w = some e → e.isImportant = is_important e.appName) ∧
    (∀ catalog catalog' : List String, catalog.Perm catalog' →
      ∀ name, is_important_with catalog name = is_important_with catalog' name) := by
  refine ⟨?_, ?_, ?_⟩
  · intro w₁ w₂ e₁ e₂ h₁ h₂ hname
    obtain ⟨rfl, -, -⟩ := processRecord_some_eq w₁ e₁ h₁
    obtain ⟨rfl, -, -⟩ := processRecord_some_eq w₂ e₂ h₂
    simp only [mkEntry, get_app_name, hname]
  · intro w e h
    obtain ⟨rfl, -, -⟩ := processRecord_some_eq w e h
    simp only [mkEntry]
  · intro catalog catalog' hperm name
    rw [Bool.eq_iff_iff]
    simp only [is_important_with, List.any_eq_true]
    constructor
    · rintro ⟨app, ha, hf⟩
      exact ⟨app, hperm.mem_iff.mp ha, hf⟩
    · rintro ⟨app, ha, hf⟩
      exact ⟨app, hperm.mem_iff.mpr ha, hf⟩

/-- C9 (witness). -/
theorem importance_purity_spec_witness :
    (mkEntry slackTitledA).isImportant = (mkEntry slackTitledB).isImportant ∧
    is_important_with ["Slack", "Dock"] "Slack" = is_important_with ["Dock", "Slack"] "Slack" :=
  ⟨importance_purity_spec.1 slackTitledA slackTitledB _ _ (by decide) (by decide) rfl,
   importance_purity_spec.2.2 _ _ (List.Perm.swap "Dock" "Slack" []) "Slack"⟩

/-- C10: with identity fields present, absent optional fields are defaulted,
never faulted: a missing title becomes the empty string (and the windowTitle
of the emitted entry is empty); a missing bounds dictionary or missing
Width/Height key defaults the dimension to 0, so the record is silently
rejected by the size rule; a missing layer defaults to 0 and passes the
layer rule; a missing on-screen flag is emitted as isOnScreen = false. -/
theorem missing_field_defaults_spec (w : RawWindow) :
    (w.kCGWindowName = none → get_title w = "") ∧
    (w.kCGWindowBounds = none →
      get_width w = 0 ∧ get_height w = 0 ∧ processRecord w = none) ∧
    (∀ b, w.kCGWindowBounds = some b → b.width? = none →
      get_width w = 0 ∧ processRecord w = none) ∧
    (∀ b, w.kCGWindowBounds = some b → b.height? = none →
      get_height w = 0 ∧ processRecord w = none) ∧
    (w.kCGWindowLayer = none → get_layer w = 0 ∧ layer_rejects w = false) ∧
    (∀ e, processRecord w = some e → w.kCGWindowIsOnscreen = none → e.isOnScreen = false) ∧
    (∀ e, processRecord w = some e → w.kCGWindowName = none → e.windowTitle = "") := by
  have hsize : ∀ h : size_rejects w = true, processRecord w = none := by
    intro h
    rw [processRecord_eq, noise_passes]
    simp [h]
  refine ⟨?_, ?_, ?_, ?_, ?_, ?_, ?_⟩
  · intro h
    simp [get_title, h]
  · intro h
    have hw : get_width w = 0 := by
      simp only [get_width, get_bounds, h, Option.getD_none]
      rfl
    have hh : get_height w = 0 := by
      simp only [get_height, get_bounds, h, Option.getD_none]
      rfl
    exact ⟨hw, hh, hsize (by simp [size_rejects, hw])⟩
  · intro b hb hbw
    have hw : get_width w = 0 := by
      simp [get_width, get_bounds, hb, hbw]
    exact ⟨hw, hsize (by simp [size_rejects, hw])⟩
  · intro b hb hbh
    have hh : get_height w = 0 := by
      simp [get_height, get_bounds, hb, hbh]
    exact ⟨hh, hsize (by simp [size_rejects, hh])⟩
  · intro h
    exact ⟨by simp [get_layer, h], by simp [layer_rejects, get_layer, h]⟩
  · intro e he hon
    obtain ⟨rfl, -, -⟩ := processRecord_some_eq w e he
    simp [mkEntry, hon]
  · intro e he ht
    obtain ⟨rfl, -, -⟩ := processRecord_some_eq w e he
    simp [mkEntry, get_title, ht]

/-- C10 (witness). -/
theorem missing_field_defaults_spec_witness :
    get_title defaultsBare = "" ∧
    processRecord defaultsBare = none ∧
    get_layer defaultsBare = 0 ∧
    layer_rejects defaultsBare = false ∧
    (mkEntry defaultsBounded).isOnScreen = false ∧
    (mkEntry defaultsBounded).windowTitle = "" := by
  have h1 := (missing_field_defaults_spec defaultsBare).1 rfl
  have h2 := ((missing_field_defaults_spec defaultsBare).2.1 rfl).2.2
  have h3 := (missing_field_defaults_spec defaultsBare).2.2.2.2.1 rfl
  have h5 := (missing_field_defaults_spec defaultsBounded).2.2.2.2.2.1
    (mkEntry defaultsBounded) (by decide) rfl
  have h6 := (missing_field_defaults_spec defaultsBounded).2.2.2.2.2.2
    (mkEntry defaultsBounded) (by decide) rfl
  exact ⟨h1, h2, h3.1, h3.2, h5, h6⟩

end WindowInspector
